import Mathlib

/-!
Shallow embedding of the FinAnalytics Financial Insight Engine core:
budget overlap validation and spend aggregation (BudgetsService), goal
progress/status computation and allocate/withdraw (GoalsService), the
insight heuristics (AnalyticsService, BudgetsService nudges) and the
category-classifier HTTP client contract (MlService).

Currency amounts are modelled as rationals; JavaScript `toFixed(n)`
rounding is modelled as round-half-up to n decimal places, which agrees
with JS semantics on the nonnegative values that occur here. Timestamps
are integers (milliseconds since epoch).
-/

namespace FinAnalytics

/-- Model of JavaScript `+x.toFixed(d)`: round half-up to d decimal places. -/
def roundTo (d : Nat) (x : ℚ) : ℚ :=
  (⌊x * (10 : ℚ) ^ d + 1/2⌋ : ℤ) / (10 : ℚ) ^ d

/-- Round to 2 decimal places, as in `+x.toFixed(2)`. -/
def round2 (x : ℚ) : ℚ := roundTo 2 x

/-- Round to 1 decimal place, as in `+x.toFixed(1)`. -/
def round1 (x : ℚ) : ℚ := roundTo 1 x

/-- Round to an integer, as in `+x.toFixed(0)`. -/
def round0Int (x : ℚ) : ℤ := ⌊x + 1/2⌋

/-- A rational that is an exact multiple of 1/100, i.e. a value with at
most two decimal places. The DTO validators (`maxDecimalPlaces: 2`) and
the data model guarantee this for all stored amounts. -/
def Is2dp (x : ℚ) : Prop := ∃ k : ℤ, x = (k : ℚ) / 100

-- ═══════════════════════════════════════════════════════════════════════════
-- MlService — classifier HTTP client (src/backend/src/ml/ml.service.ts)
-- ═══════════════════════════════════════════════════════════════════════════

/-- Ways the underlying `fetch` can reject: the AbortController firing on
timeout, or a network-level error. -/
inductive FetchFailure
  | timeout
  | networkError
deriving DecidableEq, Repr

/-- Outcome of parsing the response body as JSON: either it fails
(`response.json()` throws) or it yields a prediction payload. -/
inductive BodyParse
  | malformed
  | valid (category_slug : String) (confidence : ℚ)
deriving DecidableEq, Repr

/-- An HTTP response together with the parse outcome of its body. -/
structure HttpResponse where
  status : Nat
  body : BodyParse
deriving DecidableEq, Repr

/-- The `response.ok` flag: status in the 2xx range. -/
def responseOk (r : HttpResponse) : Bool :=
  decide (200 ≤ r.status) && decide (r.status < 300)

/-- Behaviour of one outbound fetch: it either throws or returns a response.
This is the oracle describing the external service for a single call. -/
inductive FetchOutcome
  | throws (e : FetchFailure)
  | returns (r : HttpResponse)
deriving DecidableEq, Repr

/-- Prediction returned on success (MlPrediction in ml.service.ts). -/
structure MlPrediction where
  suggestedCategorySlug : String
  confidence : ℚ
deriving DecidableEq, Repr

/-- Record of an outbound HTTP request issued by the client, used to state
that no request is issued on the blank-description early return. -/
structure MlRequest where
  path : String
deriving DecidableEq, Repr

/-- Truthiness test of the guard `!description?.trim()` for a present
description: `description.trim()` is the empty string — i.e. falsy — exactly
when every character is whitespace. -/
def blankAfterTrim (s : String) : Bool := s.data.all Char.isWhitespace

/-- MlService.fetchWithTimeout: catches, logs and rethrows any fetch error,
so it is the identity on the outcome, with failures as `Except.error`. -/
def fetchWithTimeout (outcome : FetchOutcome) : Except FetchFailure HttpResponse :=
  match outcome with
  | .throws e => .error e
  | .returns r => .ok r

/-- The `try` block of MlService.categorise: issues the POST /predict fetch
(failures propagate as `Except.error`), returns null on a non-ok status or
a malformed body, and the prediction otherwise. -/
def categoriseTry (outcome : FetchOutcome) : Except FetchFailure (Option MlPrediction) :=
  match fetchWithTimeout outcome with
  | .error e => .error e
  | .ok r =>
    if responseOk r then
      match r.body with
      | .malformed => .ok none
      | .valid slug conf => .ok (some ⟨slug, conf⟩)
    else .ok none

/-- MlService.categorise. The description is `Option String` because the
source guards `description?.trim()` against undefined; a blank description
returns null before any fetch. The surrounding catch-all turns every
propagated fetch error into null, so the embedding is a total function —
the method never throws. The second component is the list of outbound
requests issued during the call. -/
def categorise (description : Option String) (ty : String) (outcome : FetchOutcome) :
    Option MlPrediction × List MlRequest :=
  match description with
  | none => (none, [])
  | some d =>
    if blankAfterTrim d then (none, [])
    else
      match categoriseTry outcome with
      | .error _ => (none, [⟨"/predict"⟩])
      | .ok r => (r, [⟨"/predict"⟩])

/-- MlService.sendFeedback: blank description returns before any fetch;
otherwise the POST /feedback request is issued and any error from it is
caught and only logged, so the function always returns unit. The value is
the list of outbound requests issued. -/
def sendFeedback (description : Option String) (correctCategorySlug : String)
    (outcome : FetchOutcome) : List MlRequest :=
  match description with
  | none => []
  | some d =>
    if blankAfterTrim d then []
    else
      match fetchWithTimeout outcome with
      | .error _ => [⟨"/feedback"⟩]
      | .ok _ => [⟨"/feedback"⟩]

-- ═══════════════════════════════════════════════════════════════════════════
-- Data model — Category, Transaction, Budget (prisma schema + services)
-- ═══════════════════════════════════════════════════════════════════════════

/-- A spending category (id, unique slug, display name). -/
structure Category where
  id : Nat
  slug : String
  name : String
deriving DecidableEq, Repr

/-- A ledger transaction, restricted to the fields the core reads. -/
structure Transaction where
  userId : Nat
  type : String
  amount : ℚ
  date : ℤ
  categoryId : Option Nat
deriving DecidableEq, Repr

/-- A stored budget. `category` mirrors the `include: \x7b category: true \x7d`
relation load used by BudgetsService (needed for the social flag and the
nudge label). -/
structure Budget where
  id : Nat
  userId : Nat
  categoryId : Option Nat
  category : Option Category
  limitAmount : ℚ
  period : String
  startAt : ℤ
  endAt : ℤ
deriving DecidableEq, Repr

-- ═══════════════════════════════════════════════════════════════════════════
-- BudgetsService — constants, spending aggregation, summary enrichment
-- ═══════════════════════════════════════════════════════════════════════════

/-- Threshold at which a budget is flagged near the limit (80 %). -/
def NEAR_LIMIT_THRESHOLD : ℚ := 80

/-- Below this percentage used the user counts as under budget (85 %). -/
def UNDER_BUDGET_THRESHOLD : ℚ := 85

/-- Minimum fraction of the budget period that must have elapsed before the
under-budget nudge may show (25 %). -/
def UNDER_BUDGET_MIN_PERIOD_ELAPSED : ℚ := 1/4

/-- Category slug used for social spending. -/
def SOCIAL_SLUG : String := "social"

/-- Milliseconds per day, as in the services. -/
def msPerDay : ℤ := 1000 * 60 * 60 * 24

/-- Alert tier of a budget summary. -/
inductive AlertStatus
  | over
  | near
  | ok
deriving DecidableEq, Repr

/-- BudgetsService.calcSpending: total expense spending within the budget
window `[startAt, endAt]` (both ends inclusive, `gte`/`lte`), scoped to the
budget category when present, rounded to 2 decimals. -/
def calcSpending (ledger : List Transaction) (b : Budget) : ℚ :=
  round2 (((ledger.filter (fun t =>
    t.userId == b.userId && t.type == "expense" &&
    decide (b.startAt ≤ t.date) && decide (t.date ≤ b.endAt) &&
    (match b.categoryId with
     | some cid => t.categoryId == some cid
     | none => true))).map Transaction.amount).sum)

/-- The raw (unrounded) window expense sum, used to state what calcSpending
aggregates. -/
def windowExpenseSum (ledger : List Transaction) (b : Budget) : ℚ :=
  ((ledger.filter (fun t =>
    t.userId == b.userId && t.type == "expense" &&
    decide (b.startAt ≤ t.date) && decide (t.date ≤ b.endAt) &&
    (match b.categoryId with
     | some cid => t.categoryId == some cid
     | none => true))).map Transaction.amount).sum

/-- The enriched budget returned to clients (BudgetsService.enrichWithSummary). -/
structure BudgetSummary where
  budget : Budget
  limitAmount : ℚ
  totalSpent : ℚ
  remaining : ℚ
  percentageUsed : ℚ
  alertStatus : AlertStatus
  isSocial : Bool
deriving DecidableEq, Repr

/-- BudgetsService.enrichWithSummary: attaches real-time spending,
percentage used (1 decimal), alert status and the social flag. -/
def enrichWithSummary (ledger : List Transaction) (b : Budget) : BudgetSummary :=
  let totalSpent := calcSpending ledger b
  let limitAmount := round2 b.limitAmount
  let percentageUsed :=
    if 0 < limitAmount then round1 (totalSpent / limitAmount * 100) else 0
  let alertStatus : AlertStatus :=
    if 100 ≤ percentageUsed then .over
    else if NEAR_LIMIT_THRESHOLD ≤ percentageUsed then .near
    else .ok
  { budget := b
    limitAmount := limitAmount
    totalSpent := totalSpent
    remaining := round2 (limitAmount - totalSpent)
    percentageUsed := percentageUsed
    alertStatus := alertStatus
    isSocial := (b.category.map Category.slug) == some SOCIAL_SLUG }

-- ═══════════════════════════════════════════════════════════════════════════
-- BudgetsService — create with overlap validation
-- ═══════════════════════════════════════════════════════════════════════════

/-- Payload of POST /budgets (CreateBudgetDto). -/
structure CreateBudgetDto where
  categoryId : Option Nat
  limitAmount : ℚ
  period : String
  startAt : ℤ
  endAt : ℤ
deriving DecidableEq, Repr

/-- Errors BudgetsService.create can raise. The conflict error carries the
colliding budget id, mirroring the exception message which names it. -/
inductive CreateError
  | badRequest
  | notFound (categoryId : Nat)
  | conflict (existingId : Nat)
deriving DecidableEq, Repr

/-- The `where` filter used by BudgetsService.checkOverlap: same user, same
category scope (null treated as its own scope via `categoryId ?? null`),
window intersecting `startAt < endAt(req)` and `endAt > startAt(req)`,
optionally excluding one budget id (update path). -/
def overlapQuery (uid : Nat) (cid : Option Nat) (s e : ℤ) (excludeId : Option Nat)
    (b : Budget) : Bool :=
  b.userId == uid && b.categoryId == cid &&
  decide (b.startAt < e) && decide (s < b.endAt) &&
  (match excludeId with
   | some x => b.id != x
   | none => true)

/-- BudgetsService.checkOverlap: first stored budget matching the overlap
query, if any (findFirst). -/
def checkOverlap (store : List Budget) (uid : Nat) (cid : Option Nat)
    (s e : ℤ) (excludeId : Option Nat) : Option Budget :=
  store.find? (overlapQuery uid cid s e excludeId)

/-- True when `dto.categoryId` is present but names no stored category. -/
def categoryLookupFails (cats : List Category) (cid? : Option Nat) : Bool :=
  match cid? with
  | some cid => (cats.find? (fun c => c.id == cid)).isNone
  | none => false

/-- BudgetsService.create: rejects a window with `endAt <= startAt`, then an
unknown category, then an overlapping budget for the same user+category
(Conflict); otherwise inserts the new budget. Returns the created budget
and the new store. -/
def createBudget (cats : List Category) (store : List Budget) (newId : Nat)
    (dto : CreateBudgetDto) (uid : Nat) : Except CreateError (Budget × List Budget) :=
  if dto.endAt ≤ dto.startAt then .error .badRequest
  else if categoryLookupFails cats dto.categoryId then
    .error (.notFound (dto.categoryId.getD 0))
  else
    match checkOverlap store uid dto.categoryId dto.startAt dto.endAt none with
    | some existing => .error (.conflict existing.id)
    | none =>
      let b : Budget :=
        { id := newId
          userId := uid
          categoryId := dto.categoryId
          category := dto.categoryId.bind (fun cid => cats.find? (fun c => c.id == cid))
          limitAmount := dto.limitAmount
          period := dto.period
          startAt := dto.startAt
          endAt := dto.endAt }
      .ok (b, b :: store)

/-- Two budget windows overlap: `s1 < e2 AND e1 > s2`. -/
def Overlapping (b1 b2 : Budget) : Prop :=
  b1.startAt < b2.endAt ∧ b2.startAt < b1.endAt

/-- No two distinct stored budgets of the same user and category scope have
overlapping windows. -/
def PairwiseNonOverlap (store : List Budget) : Prop :=
  ∀ b1, b1 ∈ store → ∀ b2, b2 ∈ store → b1.id ≠ b2.id →
    b1.userId = b2.userId → b1.categoryId = b2.categoryId → ¬ Overlapping b1 b2

-- ═══════════════════════════════════════════════════════════════════════════
-- GoalsService — progress enrichment, allocate/withdraw, early-finish nudges
-- ═══════════════════════════════════════════════════════════════════════════

/-- A stored savings goal, restricted to the fields the core reads. -/
structure Goal where
  id : Nat
  userId : Nat
  name : String
  targetAmount : ℚ
  currentAmount : ℚ
  deadline : Option ℤ
  createdAt : ℤ
deriving DecidableEq, Repr

/-- Goal status computed by GoalsService.enrichWithProgress. -/
inductive GoalStatus
  | completed
  | on_track
  | at_risk
  | overdue
  | in_progress
deriving DecidableEq, Repr

/-- Calendar days to the deadline: `Math.ceil((deadline - now) / msPerDay)`,
none when the goal has no deadline. -/
def daysRemainingOf (now : ℤ) (g : Goal) : Option ℤ :=
  g.deadline.map (fun d => ⌈((d - now : ℤ) : ℚ) / (msPerDay : ℚ)⌉)

/-- Days since creation, floored at 1:
`Math.max(1, Math.floor((now - createdAt) / msPerDay))`. -/
def daysElapsedOf (now : ℤ) (g : Goal) : ℤ :=
  max 1 ⌊((now - g.createdAt : ℤ) : ℚ) / (msPerDay : ℚ)⌋

/-- The enriched goal returned to clients (GoalsService.enrichWithProgress). -/
structure GoalProgress where
  goal : Goal
  currentAmount : ℚ
  targetAmount : ℚ
  percentage : ℚ
  status : GoalStatus
  daysRemaining : Option ℤ
  dailyRateNeeded : Option ℚ
  monthlyRateNeeded : Option ℚ
deriving DecidableEq, Repr

/-- Completion percentage: `min(current/target*100, 100)` to one decimal,
0 when the (rounded) target is not positive. -/
def percentageOf (g : Goal) : ℚ :=
  if 0 < round2 g.targetAmount then
    round1 (min (round2 g.currentAmount / round2 g.targetAmount * 100) 100)
  else 0

/-- The `dailyRateNeeded`/`monthlyRateNeeded` pair: set only when a deadline
exists, days remain and the goal is not complete. -/
def ratesOf (now : ℤ) (g : Goal) : Option (ℚ × ℚ) :=
  match daysRemainingOf now g with
  | some dr =>
    if 0 < dr ∧ percentageOf g < 100 then
      let remaining := round2 (round2 g.targetAmount - round2 g.currentAmount)
      let daily := round2 (remaining / (dr : ℚ))
      some (daily, round2 (daily * 30))
    else none
  | none => none

/-- The status state machine of GoalsService.enrichWithProgress, in source
order: completed, overdue, the rate comparison, in_progress. -/
def statusOf (now : ℤ) (g : Goal) : GoalStatus :=
  if 100 ≤ percentageOf g then .completed
  else
    match daysRemainingOf now g with
    | some dr =>
      if dr < 0 then .overdue
      else if 0 < dr then
        let actualDailyRate := round2 g.currentAmount / (daysElapsedOf now g : ℚ)
        let requiredDailyRate := ((ratesOf now g).map Prod.fst).getD 0
        if requiredDailyRate ≤ actualDailyRate ∨ (dr ≤ 7 ∧ 90 ≤ percentageOf g) then
          .on_track
        else .at_risk
      else .in_progress
    | none => .in_progress

/-- GoalsService.enrichWithProgress: completion percentage (capped at 100,
1 decimal), days remaining, required daily/monthly rate, and the status
state machine. `now` stands for `Date.now()`. -/
def enrichWithProgress (now : ℤ) (g : Goal) : GoalProgress :=
  { goal := g
    currentAmount := round2 g.currentAmount
    targetAmount := round2 g.targetAmount
    percentage := percentageOf g
    status := statusOf now g
    daysRemaining := daysRemainingOf now g
    dailyRateNeeded := (ratesOf now g).map Prod.fst
    monthlyRateNeeded := (ratesOf now g).map Prod.snd }

/-- Error raised by GoalsService.withdraw when the amount exceeds the saved
balance. It carries the available balance, which the exception message
states (`the goal only has KES \x7bcurrent\x7d saved`). -/
inductive WithdrawError
  | insufficient (available : ℚ)
deriving DecidableEq, Repr

/-- GoalsService.withdraw on the stored goal: rejects when the amount
exceeds the (2-decimal rounded) current balance, otherwise decrements. -/
def withdraw (g : Goal) (amount : ℚ) : Except WithdrawError Goal :=
  let current := round2 g.currentAmount
  if current < amount then .error (.insufficient current)
  else .ok { g with currentAmount := round2 (current - amount) }

/-- State-passing view of withdraw: the error path performs no update, so
the stored goal is unchanged there. -/
def withdrawRun (g : Goal) (amount : ℚ) : Goal × Option WithdrawError :=
  match withdraw g amount with
  | .error e => (g, some e)
  | .ok g2 => (g2, none)

/-- GoalsService.allocate: `currentAmount := round2(currentAmount + amount)`. -/
def allocate (g : Goal) (amount : ℚ) : Goal :=
  { g with currentAmount := round2 (g.currentAmount + amount) }

/-- An early-finish nudge (GoalsService.getGoalNudges item). The rendered
message embeds `extraPerWeek` (via toLocaleString, display formatting not
modelled) and the goal name; the numeric content is kept as a field. -/
structure GoalNudge where
  id : String
  type : String
  goalName : String
  extraPerWeek : ℚ
  severity : String
deriving DecidableEq, Repr

/-- The per-goal body of GoalsService.getGoalNudges: skips goals that are
completed/overdue/in_progress, without a positive daysRemaining, with
fewer than 2.5 weeks remaining, with nothing left to save, or whose
2-week-early denominator is nonpositive; otherwise emits the nudge when
the rounded extra weekly amount is strictly positive and below 1e6. -/
def goalNudge (now : ℤ) (g : Goal) : Option GoalNudge :=
  let p := enrichWithProgress now g
  if p.status = .completed ∨ p.status = .overdue ∨ p.status = .in_progress then none
  else
    match p.daysRemaining with
    | none => none
    | some dr =>
      if dr ≤ 0 then none
      else
        let weeksRemaining : ℚ := (dr : ℚ) / 7
        if weeksRemaining < 5/2 then none
        else
          let remaining := round2 (p.targetAmount - p.currentAmount)
          if remaining ≤ 0 then none
          else
            let requiredWeekly := remaining / weeksRemaining
            let weeksToFinishEarly := weeksRemaining - 2
            if weeksToFinishEarly ≤ 0 then none
            else
              let weeklyToFinishEarly := remaining / weeksToFinishEarly
              let extraPerWeek := round2 (weeklyToFinishEarly - requiredWeekly)
              if 0 < extraPerWeek ∧ extraPerWeek < 1000000 then
                some { id := "goal_early_" ++ toString g.id
                       type := "goal_save_early"
                       goalName := g.name
                       extraPerWeek := extraPerWeek
                       severity := "info" }
              else none

/-- GoalsService.getGoalNudges over the whole goal list. -/
def getGoalNudges (now : ℤ) (goals : List Goal) : List GoalNudge :=
  goals.filterMap (goalNudge now)

/-- The extra weekly amount of the early-finish nudge for an enriched goal
with `dr` days remaining: the weekly rate needed to finish two weeks early
minus the weekly rate needed to finish on the deadline, rounded to two
decimals as the source rounds `extraPerWeek` before testing and showing it. -/
def extraWeeklyAmount (p : GoalProgress) (dr : ℤ) : ℚ :=
  let remaining := round2 (p.targetAmount - p.currentAmount)
  let weeksRemaining : ℚ := (dr : ℚ) / 7
  round2 (remaining / (weeksRemaining - 2) - remaining / weeksRemaining)

-- ═══════════════════════════════════════════════════════════════════════════
-- BudgetsService — under-budget praise nudge
-- ═══════════════════════════════════════════════════════════════════════════

/-- Shape of a single nudge (NudgeItem in budgets.service.ts). -/
structure NudgeItem where
  id : String
  type : String
  message : String
  severity : String
deriving DecidableEq, Repr

/-- The `findMany` filter of getUnderBudgetNudge: budgets of the user whose
end date is not in the past (`endAt: \x7b gte: now \x7d`). -/
def activeBudgets (now : ℤ) (store : List Budget) (uid : Nat) : List Budget :=
  store.filter (fun b => b.userId == uid && decide (now ≤ b.endAt))

/-- Fraction of the budget period elapsed at `now`, 0 when the window has
nonpositive length. -/
def periodFractionElapsed (now : ℤ) (b : Budget) : ℚ :=
  let elapsed : ℚ := ((now - b.startAt : ℤ) : ℚ) / (msPerDay : ℚ)
  let totalDays : ℚ := ((b.endAt - b.startAt : ℤ) : ℚ) / (msPerDay : ℚ)
  if 0 < totalDays then elapsed / totalDays else 0

/-- The filter inside getUnderBudgetNudge: alert status must be ok, the
percentage used below the 85 % threshold, and at least 25 % of the period
elapsed. -/
def underBudgetFilter (now : ℤ) (s : BudgetSummary) : Bool :=
  if s.alertStatus ≠ .ok ∨ UNDER_BUDGET_THRESHOLD ≤ s.percentageUsed then false
  else decide (UNDER_BUDGET_MIN_PERIOD_ELAPSED ≤ periodFractionElapsed now s.budget)

/-- The summaries of the active budgets that pass the under-budget filter
(the `underBudgets` array in the source). -/
def qualifyingBudgets (now : ℤ) (ledger : List Transaction) (store : List Budget)
    (uid : Nat) : List BudgetSummary :=
  ((activeBudgets now store uid).map (enrichWithSummary ledger)).filter
    (underBudgetFilter now)

/-- Message emitted when exactly one budget qualifies, naming its category
(or overall spending) and how far under budget it is. -/
def singleUnderBudgetMessage (s : BudgetSummary) : String :=
  "Great job! You\x27re " ++ toString (round0Int (100 - s.percentageUsed)) ++
  "% under budget on " ++ ((s.budget.category.map Category.name).getD "overall spending") ++
  " this period."

/-- Message emitted when several budgets qualify. -/
def countUnderBudgetMessage (n : Nat) : String :=
  "Great job! You\x27re under budget on " ++ toString n ++ " categories this period."

/-- BudgetsService.getUnderBudgetNudge: emits one positive nudge when at
least one active budget qualifies, none otherwise. -/
def getUnderBudgetNudge (now : ℤ) (ledger : List Transaction) (store : List Budget)
    (uid : Nat) : Option NudgeItem :=
  let budgets := activeBudgets now store uid
  if budgets.isEmpty then none
  else
    match (budgets.map (enrichWithSummary ledger)).filter (underBudgetFilter now) with
    | [] => none
    | b0 :: rest =>
      some { id := "under_budget"
             type := "under_budget"
             message :=
               if rest.isEmpty then singleUnderBudgetMessage b0
               else countUnderBudgetMessage (rest.length + 1)
             severity := "info" }

-- ═══════════════════════════════════════════════════════════════════════════
-- AnalyticsService — category month-over-month spike insights
-- ═══════════════════════════════════════════════════════════════════════════

/-- A derived insight (Insight in analytics.service.ts). -/
structure Insight where
  id : String
  type : String
  message : String
  severity : String
deriving DecidableEq, Repr

/-- Expense sum for one user and category with date in `[lo, hi]`
(the transaction aggregate used twice per category; no rounding). -/
def sumExpensesBetween (ledger : List Transaction) (uid : Nat) (cid : Nat)
    (lo hi : ℤ) : ℚ :=
  ((ledger.filter (fun t =>
    t.userId == uid && t.type == "expense" && t.categoryId == some cid &&
    decide (lo ≤ t.date) && decide (t.date ≤ hi))).map Transaction.amount).sum

/-- The per-category body of AnalyticsService.categorySpikeInsights: this
calendar month vs the prior one; an insight is produced when the prior
month sum is positive and this month is at least double it. The month
boundaries are passed in (`lastMonthEnd` is one millisecond before
`thisMonthStart`, as in the source). -/
def spikeInsightFor (now thisMonthStart lastMonthStart : ℤ) (ledger : List Transaction)
    (uid : Nat) (cat : Category) : Option Insight :=
  let lastMonthEnd := thisMonthStart - 1
  let thisMonth := sumExpensesBetween ledger uid cat.id thisMonthStart now
  let lastMonth := sumExpensesBetween ledger uid cat.id lastMonthStart lastMonthEnd
  if 0 < lastMonth ∧ lastMonth * 2 ≤ thisMonth then
    some { id := "category_spike_" ++ cat.slug
           type := "category_spike"
           message := cat.name ++ " costs more than doubled this month compared to last month."
           severity := "tip" }
  else none

/-- AnalyticsService.categorySpikeInsights: one insight per non-income
category whose expense spend at least doubled month over month. -/
def categorySpikeInsights (now thisMonthStart lastMonthStart : ℤ)
    (cats : List Category) (ledger : List Transaction) (uid : Nat) : List Insight :=
  (cats.filter (fun c => c.slug != "income")).filterMap
    (spikeInsightFor now thisMonthStart lastMonthStart ledger uid)

-- ═══════════════════════════════════════════════════════════════════════════
-- Helper lemmas on rounding
-- ═══════════════════════════════════════════════════════════════════════════

theorem Is2dp.add {a b : ℚ} (ha : Is2dp a) (hb : Is2dp b) : Is2dp (a + b) := by
  obtain ⟨j, rfl⟩ := ha
  obtain ⟨k, rfl⟩ := hb
  exact ⟨j + k, by push_cast [div_add_div_same]; rfl⟩

theorem Is2dp.sub {a b : ℚ} (ha : Is2dp a) (hb : Is2dp b) : Is2dp (a - b) := by
  obtain ⟨j, rfl⟩ := ha
  obtain ⟨k, rfl⟩ := hb
  exact ⟨j - k, by push_cast [div_sub_div_same]; rfl⟩

theorem Is2dp.zero : Is2dp 0 := ⟨0, by norm_num⟩

/-- round2 is the identity on values with at most two decimal places. -/
theorem round2_eq_self {x : ℚ} (h : Is2dp x) : round2 x = x := by
  obtain ⟨k, rfl⟩ := h
  unfold round2 roundTo
  have h1 : (k : ℚ) / 100 * (10 : ℚ) ^ 2 = (k : ℚ) := by
    rw [show ((10 : ℚ) ^ 2) = 100 by norm_num, div_mul_cancel₀]
    norm_num
  rw [h1]
  have h2 : ⌊(k : ℚ) + 1/2⌋ = k := by
    rw [add_comm, Int.floor_add_int]
    norm_num
  rw [h2]
  norm_num

/-- Sum of a list of two-decimal values is a two-decimal value. -/
theorem Is2dp.list_sum {l : List ℚ} (h : ∀ x ∈ l, Is2dp x) : Is2dp l.sum := by
  induction l with
  | nil => simpa using Is2dp.zero
  | cons a t ih =>
      rw [List.sum_cons]
      exact (h a (List.mem_cons_self a t)).add (ih fun x hx => h x (List.mem_cons_of_mem a hx))

-- ═══════════════════════════════════════════════════════════════════════════
-- C2 — classifier degrades to null on every external failure
-- ═══════════════════════════════════════════════════════════════════════════

/-- C2: for every description and type, `categorise` returns null — and, being
a total function into `Option`, never throws — when the external call ends in
a thrown fetch error (network error or timeout), a non-success HTTP status, or
a malformed JSON body; in particular a timeout, a 500 response and a malformed
body each yield null. -/
theorem C2_classifier_degrades_to_null (d : Option String) (ty : String) :
    (∀ e, (categorise d ty (.throws e)).1 = none) ∧
    (∀ r, responseOk r = false → (categorise d ty (.returns r)).1 = none) ∧
    (∀ st, (categorise d ty (.returns ⟨st, .malformed⟩)).1 = none) ∧
    (categorise d ty (.throws .timeout)).1 = none ∧
    (∀ b, (categorise d ty (.returns ⟨500, b⟩)).1 = none) := by
  have hthrow : ∀ e, (categorise d ty (.throws e)).1 = none := by
    intro e
    cases d with
    | none => rfl
    | some s =>
      simp only [categorise, categoriseTry, fetchWithTimeout]
      split <;> rfl
  have hbad : ∀ r, responseOk r = false → (categorise d ty (.returns r)).1 = none := by
    intro r hr
    cases d with
    | none => rfl
    | some s =>
      simp only [categorise, categoriseTry, fetchWithTimeout, hr]
      split <;> rfl
  have hmal : ∀ st, (categorise d ty (.returns ⟨st, .malformed⟩)).1 = none := by
    intro st
    cases d with
    | none => rfl
    | some s =>
      simp only [categorise, categoriseTry, fetchWithTimeout]
      rcases h : responseOk ⟨st, .malformed⟩ with _ | _ <;> simp [h] <;> split <;> rfl
  refine ⟨hthrow, hbad, hmal, hthrow .timeout, ?_⟩
  intro b
  exact hbad ⟨500, b⟩ (by simp [responseOk])

/-- Witness for C2 at a concrete description, response and status. -/
theorem C2_classifier_degrades_to_null_witness :
    responseOk ⟨503, .valid "food" (9/10)⟩ = false ∧
    (categorise (some "coffee at java house") "expense"
        (.returns ⟨503, .valid "food" (9/10)⟩)).1 = none := by
  refine ⟨by decide, ?_⟩
  exact (C2_classifier_degrades_to_null (some "coffee at java house") "expense").2.1
    ⟨503, .valid "food" (9/10)⟩ (by decide)

-- ═══════════════════════════════════════════════════════════════════════════
-- C10 — blank description: no outbound request at all
-- ═══════════════════════════════════════════════════════════════════════════

/-- C10: for every description that is undefined, empty or whitespace-only,
`categorise` returns null immediately and issues no outbound request, and
`sendFeedback` likewise returns without issuing a request, whatever the
external service would have done. -/
theorem C10_blank_description_no_request (d : Option String) (ty slug : String)
    (outcome : FetchOutcome)
    (h : d = none ∨ ∃ s, d = some s ∧ blankAfterTrim s = true) :
    categorise d ty outcome = (none, []) ∧ sendFeedback d slug outcome = [] := by
  rcases h with rfl | ⟨s, rfl, hs⟩
  · exact ⟨rfl, rfl⟩
  · constructor
    · simp only [categorise, hs, if_pos]
    · simp only [sendFeedback, hs, if_pos]

/-- Witness for C10 at the whitespace-only description. -/
theorem C10_blank_description_no_request_witness :
    blankAfterTrim "   " = true ∧
    categorise (some "   ") "expense" (.returns ⟨200, .valid "food" (9/10)⟩) = (none, []) ∧
    sendFeedback (some "   ") "food" (.returns ⟨200, .valid "food" (9/10)⟩) = [] := by
  have h := C10_blank_description_no_request (some "   ") "expense" "food"
    (.returns ⟨200, .valid "food" (9/10)⟩) (Or.inr ⟨"   ", rfl, by decide⟩)
  exact ⟨by decide, h.1, h.2⟩

-- ═══════════════════════════════════════════════════════════════════════════
-- C5 — withdraw rejects amounts above the balance without mutating
-- ═══════════════════════════════════════════════════════════════════════════

/-- C5: for every goal (with the two-decimal stored balance the schema and
DTO validation guarantee) and every two-decimal withdrawal amount, an amount
strictly above `currentAmount` makes withdraw raise the bad-request error
carrying the available balance and leaves the stored goal unchanged, while
any other amount succeeds and sets `currentAmount` to `currentAmount -
amount` touching no other field. -/
theorem C5_withdraw_guards_balance (g : Goal) (a : ℚ)
    (hc : Is2dp g.currentAmount) (ha : Is2dp a) :
    (g.currentAmount < a →
      withdrawRun g a = (g, some (.insufficient g.currentAmount))) ∧
    (a ≤ g.currentAmount →
      withdrawRun g a = ({ g with currentAmount := g.currentAmount - a }, none)) := by
  have h2 : round2 g.currentAmount = g.currentAmount := round2_eq_self hc
  constructor
  · intro h
    unfold withdrawRun withdraw
    simp only [h2, if_pos h]
  · intro h
    unfold withdrawRun withdraw
    simp only [h2, if_neg (not_lt.mpr h)]
    rw [round2_eq_self (hc.sub ha)]

/-- Witness for C5: both branches at concrete goals and amounts. -/
theorem C5_withdraw_guards_balance_witness :
    (30 : ℚ) < 50 ∧
    withdrawRun ⟨1, 1, "fund", 100, 30, none, 0⟩ 50 =
      (⟨1, 1, "fund", 100, 30, none, 0⟩, some (.insufficient 30)) ∧
    (20 : ℚ) ≤ 30 ∧
    withdrawRun ⟨1, 1, "fund", 100, 30, none, 0⟩ 20 =
      (⟨1, 1, "fund", 100, 10, none, 0⟩, none) := by
  have h1 := (C5_withdraw_guards_balance ⟨1, 1, "fund", 100, 30, none, 0⟩ 50
    ⟨3000, by norm_num⟩ ⟨5000, by norm_num⟩).1 (by norm_num)
  have h2 := (C5_withdraw_guards_balance ⟨1, 1, "fund", 100, 30, none, 0⟩ 20
    ⟨3000, by norm_num⟩ ⟨2000, by norm_num⟩).2 (by norm_num)
  refine ⟨by norm_num, h1, by norm_num, ?_⟩
  rw [h2]
  norm_num

-- ═══════════════════════════════════════════════════════════════════════════
-- C7 — allocate then withdraw of the same amount round-trips
-- ═══════════════════════════════════════════════════════════════════════════

/-- C7: for every goal (nonnegative two-decimal balance, as the schema and
DTO validation guarantee) and every positive two-decimal amount, allocating
and then withdrawing that amount succeeds and returns `currentAmount` to its
prior value. -/
theorem C7_allocate_withdraw_roundtrip (g : Goal) (a : ℚ)
    (hc : Is2dp g.currentAmount) (ha : Is2dp a)
    (hc0 : 0 ≤ g.currentAmount) (ha0 : 0 < a) :
    (withdrawRun (allocate g a) a).2 = none ∧
    (withdrawRun (allocate g a) a).1.currentAmount = g.currentAmount := by
  have hsum : round2 (g.currentAmount + a) = g.currentAmount + a :=
    round2_eq_self (hc.add ha)
  have halloc : allocate g a = { g with currentAmount := g.currentAmount + a } := by
    unfold allocate
    rw [hsum]
  rw [halloc]
  unfold withdrawRun withdraw
  have hlt : ¬ (g.currentAmount + a < a) := by linarith
  simp only [hsum, if_neg hlt]
  have hback : g.currentAmount + a - a = g.currentAmount := by ring
  rw [hback, round2_eq_self hc]
  simp

/-- Witness for C7 at a concrete goal and amount. -/
theorem C7_allocate_withdraw_roundtrip_witness :
    (0 : ℚ) ≤ 30 ∧ (0 : ℚ) < 125/10 ∧
    (withdrawRun (allocate ⟨1, 1, "fund", 100, 30, none, 0⟩ (125/10)) (125/10)).2 = none ∧
    (withdrawRun (allocate ⟨1, 1, "fund", 100, 30, none, 0⟩ (125/10)) (125/10)).1.currentAmount = 30 := by
  have h := C7_allocate_withdraw_roundtrip ⟨1, 1, "fund", 100, 30, none, 0⟩ (125/10)
    ⟨3000, by norm_num⟩ ⟨1250, by norm_num⟩ (by norm_num) (by norm_num)
  exact ⟨by norm_num, by norm_num, h.1, h.2⟩

-- ═══════════════════════════════════════════════════════════════════════════
-- C4 — goal status precedence
-- ═══════════════════════════════════════════════════════════════════════════

/-- C4: the goal status follows the claimed precedence, first match wins:
percentage at least 100 gives completed; then a deadline with negative
daysRemaining gives overdue; then a deadline with positive daysRemaining
gives on_track exactly when the actual daily rate reaches dailyRateNeeded or
(daysRemaining at most 7 and percentage at least 90), else at_risk; a goal
with no deadline is in_progress. In particular target 10000, current 9500
and a deadline 5 days out give percentage 95 and status on_track. -/
theorem C4_goal_status_precedence (now : ℤ) (g : Goal) :
    (100 ≤ (enrichWithProgress now g).percentage →
       (enrichWithProgress now g).status = .completed) ∧
    ((enrichWithProgress now g).percentage < 100 →
       ∀ dr, (enrichWithProgress now g).daysRemaining = some dr → dr < 0 →
         (enrichWithProgress now g).status = .overdue) ∧
    ((enrichWithProgress now g).percentage < 100 →
       ∀ dr, (enrichWithProgress now g).daysRemaining = some dr → 0 < dr →
         ∀ dn, (enrichWithProgress now g).dailyRateNeeded = some dn →
           (enrichWithProgress now g).status =
             (if dn ≤ (enrichWithProgress now g).currentAmount / (daysElapsedOf now g : ℚ)
                 ∨ (dr ≤ 7 ∧ 90 ≤ (enrichWithProgress now g).percentage)
              then .on_track else .at_risk)) ∧
    (g.deadline = none → (enrichWithProgress now g).percentage < 100 →
       (enrichWithProgress now g).status = .in_progress) ∧
    ((enrichWithProgress 0 ⟨1, 1, "trip", 10000, 9500, some (5 * msPerDay),
        -(10 * msPerDay)⟩).percentage = 95 ∧
     (enrichWithProgress 0 ⟨1, 1, "trip", 10000, 9500, some (5 * msPerDay),
        -(10 * msPerDay)⟩).status = .on_track) := by
  simp only [enrichWithProgress]
  refine ⟨?_, ?_, ?_, ?_, ?_, ?_⟩
  · intro h
    unfold statusOf
    rw [if_pos h]
  · intro h dr hdr hneg
    unfold statusOf
    rw [if_neg (not_le.mpr h), hdr]
    simp only [if_pos hneg]
  · intro h dr hdr hpos dn hdn
    unfold statusOf
    rw [if_neg (not_le.mpr h), hdr]
    have hge : ¬ dr < 0 := by omega
    simp only [if_neg hge, if_pos hpos]
    have hreq : (((ratesOf now g).map Prod.fst).getD 0) = dn := by
      rw [hdn]
      rfl
    rw [hreq]
  · intro hdl h
    unfold statusOf
    rw [if_neg (not_le.mpr h)]
    unfold daysRemainingOf
    rw [hdl]
    rfl
  · norm_num [percentageOf, round2, round1, roundTo, msPerDay]
  · norm_num [statusOf, percentageOf, ratesOf, daysRemainingOf, daysElapsedOf,
      round2, round1, roundTo, msPerDay]

/-- Witness for C4 exercising each precedence rule at concrete goals. -/
theorem C4_goal_status_precedence_witness :
    (enrichWithProgress 0 ⟨1, 1, "done", 100, 150, none, 0⟩).status = .completed ∧
    (enrichWithProgress 0 ⟨2, 1, "late", 100, 50, some (-(2 * msPerDay)), -(5 * msPerDay)⟩).status
      = .overdue ∧
    (enrichWithProgress 0 ⟨3, 1, "slow", 1000, 10, some (40 * msPerDay), -(10 * msPerDay)⟩).status
      = .at_risk ∧
    (enrichWithProgress 0 ⟨4, 1, "open", 100, 50, none, 0⟩).status = .in_progress := by
  have h1 := (C4_goal_status_precedence 0 ⟨1, 1, "done", 100, 150, none, 0⟩).1
  have h2 := (C4_goal_status_precedence 0
    ⟨2, 1, "late", 100, 50, some (-(2 * msPerDay)), -(5 * msPerDay)⟩).2.1
  have h3 := (C4_goal_status_precedence 0
    ⟨3, 1, "slow", 1000, 10, some (40 * msPerDay), -(10 * msPerDay)⟩).2.2.1
  have h4 := (C4_goal_status_precedence 0 ⟨4, 1, "open", 100, 50, none, 0⟩).2.2.2.1
  refine ⟨?_, ?_, ?_, ?_⟩
  · exact h1 (by norm_num [enrichWithProgress, percentageOf, round2, round1, roundTo])
  · refine h2 (by norm_num [enrichWithProgress, percentageOf, round2, round1, roundTo])
      (-2) ?_ (by norm_num)
    norm_num [enrichWithProgress, daysRemainingOf, msPerDay]
    rw [show ((-2 : ℚ)) = ((-2 : ℤ) : ℚ) by norm_num, Int.ceil_intCast]
  · have h := h3 (by norm_num [enrichWithProgress, percentageOf, round2, round1, roundTo])
      40
      (by norm_num [enrichWithProgress, daysRemainingOf, msPerDay])
      (by norm_num)
      (99/4)
      (by norm_num [enrichWithProgress, ratesOf, daysRemainingOf, percentageOf, msPerDay,
        round2, round1, roundTo])
    rw [h]
    rw [if_neg]
    push_neg
    constructor
    · norm_num [enrichWithProgress, daysElapsedOf, msPerDay, round2, round1, roundTo]
    · intro h7
      omega
  · exact h4 rfl (by norm_num [enrichWithProgress, percentageOf, round2, round1, roundTo])

-- ═══════════════════════════════════════════════════════════════════════════
-- C3 — budget summary (percentageUsed is rounded to one decimal)
-- ═══════════════════════════════════════════════════════════════════════════

/-- Counterexample to C3 as stated: with limit 3000 and one in-window
expense of 1000, the computed percentageUsed is 33.3 (one-decimal
rounding), not the exact 1000/3000*100 = 100/3 the claim asserts. -/
theorem C3_percentage_exact_counterexample :
    (enrichWithSummary [⟨1, "expense", 1000, 10, none⟩]
       ⟨1, 1, none, none, 3000, "month", 0, 100⟩).totalSpent = 1000 ∧
    (enrichWithSummary [⟨1, "expense", 1000, 10, none⟩]
       ⟨1, 1, none, none, 3000, "month", 0, 100⟩).limitAmount = 3000 ∧
    (enrichWithSummary [⟨1, "expense", 1000, 10, none⟩]
       ⟨1, 1, none, none, 3000, "month", 0, 100⟩).percentageUsed = 333/10 ∧
    (enrichWithSummary [⟨1, "expense", 1000, 10, none⟩]
       ⟨1, 1, none, none, 3000, "month", 0, 100⟩).percentageUsed ≠
      (enrichWithSummary [⟨1, "expense", 1000, 10, none⟩]
         ⟨1, 1, none, none, 3000, "month", 0, 100⟩).totalSpent /
        (enrichWithSummary [⟨1, "expense", 1000, 10, none⟩]
           ⟨1, 1, none, none, 3000, "month", 0, 100⟩).limitAmount * 100 := by
  norm_num [enrichWithSummary, calcSpending, round2, round1, roundTo]

/-- C3 (amended): for every budget over a ledger of two-decimal amounts and
a two-decimal positive-or-zero limit, totalSpent is the sum of in-window
expense amounts (category-scoped when the budget is), remaining is
limitAmount minus totalSpent, percentageUsed is totalSpent/limitAmount*100
rounded to one decimal place (0 when the limit is 0), and alertStatus is
over at 100 %, near at 80 %, ok below; the limit-5000 / spend-4200 scenario
gives 84.0 and near. -/
theorem C3_budget_summary (ledger : List Transaction) (b : Budget)
    (hl : ∀ t ∈ ledger, Is2dp t.amount) (hlim : Is2dp b.limitAmount) :
    (enrichWithSummary ledger b).totalSpent = windowExpenseSum ledger b ∧
    (enrichWithSummary ledger b).remaining =
      b.limitAmount - (enrichWithSummary ledger b).totalSpent ∧
    (0 < b.limitAmount → (enrichWithSummary ledger b).percentageUsed =
       round1 ((enrichWithSummary ledger b).totalSpent / b.limitAmount * 100)) ∧
    (b.limitAmount = 0 → (enrichWithSummary ledger b).percentageUsed = 0) ∧
    ((enrichWithSummary ledger b).alertStatus =
       if 100 ≤ (enrichWithSummary ledger b).percentageUsed then .over
       else if 80 ≤ (enrichWithSummary ledger b).percentageUsed then .near
       else .ok) ∧
    ((enrichWithSummary [⟨1, "expense", 4200, 10, none⟩]
        ⟨1, 1, none, none, 5000, "month", 0, 100⟩).percentageUsed = 84 ∧
     (enrichWithSummary [⟨1, "expense", 4200, 10, none⟩]
        ⟨1, 1, none, none, 5000, "month", 0, 100⟩).alertStatus = .near) := by
  have hlim2 : round2 b.limitAmount = b.limitAmount := round2_eq_self hlim
  have hsum2 : Is2dp (windowExpenseSum ledger b) := by
    unfold windowExpenseSum
    apply Is2dp.list_sum
    intro x hx
    rw [List.mem_map] at hx
    obtain ⟨t, ht, rfl⟩ := hx
    exact hl t (List.mem_of_mem_filter ht)
  have hts : (enrichWithSummary ledger b).totalSpent = windowExpenseSum ledger b := by
    show round2 (windowExpenseSum ledger b) = windowExpenseSum ledger b
    exact round2_eq_self hsum2
  refine ⟨hts, ?_, ?_, ?_, ?_, ?_, ?_⟩
  · show round2 (round2 b.limitAmount - round2 (windowExpenseSum ledger b)) = _
    rw [hlim2, round2_eq_self hsum2, round2_eq_self (hlim.sub hsum2), hts]
  · intro h
    show (if 0 < round2 b.limitAmount then
            round1 (round2 (windowExpenseSum ledger b) / round2 b.limitAmount * 100)
          else 0) = _
    rw [hlim2, round2_eq_self hsum2, if_pos h, hts]
  · intro h
    show (if 0 < round2 b.limitAmount then
            round1 (round2 (windowExpenseSum ledger b) / round2 b.limitAmount * 100)
          else 0) = 0
    rw [hlim2, if_neg (by rw [h]; exact lt_irrefl 0)]
  · show (if (100 : ℚ) ≤ _ then AlertStatus.over
          else if NEAR_LIMIT_THRESHOLD ≤ _ then AlertStatus.near else AlertStatus.ok) = _
    rfl
  · norm_num [enrichWithSummary, calcSpending, round2, round1, roundTo]
  · norm_num [enrichWithSummary, calcSpending, round2, round1, roundTo,
      NEAR_LIMIT_THRESHOLD]

/-- Witness for C3 at the limit-5000 / spend-4200 scenario. -/
theorem C3_budget_summary_witness :
    (enrichWithSummary [⟨1, "expense", 4200, 10, none⟩]
       ⟨1, 1, none, none, 5000, "month", 0, 100⟩).remaining =
      (5000 : ℚ) - (enrichWithSummary [⟨1, "expense", 4200, 10, none⟩]
       ⟨1, 1, none, none, 5000, "month", 0, 100⟩).totalSpent ∧
    (enrichWithSummary [⟨1, "expense", 4200, 10, none⟩]
       ⟨1, 1, none, none, 5000, "month", 0, 100⟩).percentageUsed = 84 ∧
    (enrichWithSummary [⟨1, "expense", 4200, 10, none⟩]
       ⟨1, 1, none, none, 5000, "month", 0, 100⟩).alertStatus = .near := by
  have h := C3_budget_summary [⟨1, "expense", 4200, 10, none⟩]
    ⟨1, 1, none, none, 5000, "month", 0, 100⟩
    (by
      intro t ht
      rw [List.mem_singleton] at ht
      subst ht
      exact ⟨420000, by norm_num⟩)
    ⟨500000, by norm_num⟩
  exact ⟨h.2.1, h.2.2.2.2.2⟩

-- ═══════════════════════════════════════════════════════════════════════════
-- C9 — category month-over-month spike insight
-- ═══════════════════════════════════════════════════════════════════════════

/-- C9: an insight is emitted exactly for the stored categories whose slug is
not income and whose prior-calendar-month expense sum is positive with the
current-month sum at least double it; with this month 4000 against last
month 1800 the insight fires, with 3000 against 1800 it does not. -/
theorem C9_category_spike (now tms lms : ℤ) (cats : List Category)
    (ledger : List Transaction) (uid : Nat) :
    (∀ i, i ∈ categorySpikeInsights now tms lms cats ledger uid ↔
       ∃ cat, cat ∈ cats ∧ cat.slug ≠ "income" ∧
         spikeInsightFor now tms lms ledger uid cat = some i) ∧
    (∀ cat : Category,
       (spikeInsightFor now tms lms ledger uid cat).isSome = true ↔
         (0 < sumExpensesBetween ledger uid cat.id lms (tms - 1) ∧
          sumExpensesBetween ledger uid cat.id lms (tms - 1) * 2 ≤
            sumExpensesBetween ledger uid cat.id tms now)) ∧
    categorySpikeInsights 150 100 0 [⟨1, "food", "Food"⟩]
      [⟨1, "expense", 4000, 120, some 1⟩, ⟨1, "expense", 1800, 50, some 1⟩] 1 =
      [⟨"category_spike_food", "category_spike",
        "Food costs more than doubled this month compared to last month.", "tip"⟩] ∧
    categorySpikeInsights 150 100 0 [⟨1, "food", "Food"⟩]
      [⟨1, "expense", 3000, 120, some 1⟩, ⟨1, "expense", 1800, 50, some 1⟩] 1 = [] := by
  refine ⟨?_, ?_, ?_, ?_⟩
  · intro i
    simp only [categorySpikeInsights, List.mem_filterMap, List.mem_filter, bne_iff_ne,
      ne_eq, and_assoc]
  · intro cat
    simp only [spikeInsightFor]
    split
    · rename_i h
      simp only [Option.isSome_some, true_iff]
      exact h
    · rename_i h
      simp only [Option.isSome_none, Bool.false_eq_true, false_iff]
      exact h
  · simp only [categorySpikeInsights, List.filter_cons, List.filter_nil]
    rw [if_pos (show (("food" : String) != "income") = true by decide)]
    norm_num [spikeInsightFor, sumExpensesBetween, List.filterMap_cons, List.filterMap_nil,
      List.filter_cons, List.filter_nil]
    exact ⟨by decide, by decide⟩
  · simp only [categorySpikeInsights, List.filter_cons, List.filter_nil]
    rw [if_pos (show (("food" : String) != "income") = true by decide)]
    norm_num [spikeInsightFor, sumExpensesBetween, List.filterMap_cons, List.filterMap_nil,
      List.filter_cons, List.filter_nil]

-- ═══════════════════════════════════════════════════════════════════════════
-- C1 — budget creation conflicts exactly on window overlap
-- ═══════════════════════════════════════════════════════════════════════════

/-- Decoding of the overlap query (exclude-none form) into propositions. -/
theorem overlapQuery_none_iff (uid : Nat) (cid : Option Nat) (s e : ℤ) (b : Budget) :
    overlapQuery uid cid s e none b = true ↔
      (b.userId = uid ∧ b.categoryId = cid ∧ b.startAt < e ∧ s < b.endAt) := by
  simp [overlapQuery, Bool.and_eq_true, beq_iff_eq, decide_eq_true_eq, and_assoc]

/-- C1: once the window is well-formed and the category reference resolves,
create raises Conflict exactly when a stored budget of the same user and
category scope (null category being its own scope) has a window with
`existing.startAt < startAt(req).endAt` and `startAt(req) < existing.endAt`;
and a successful create preserves the invariant that no two distinct stored
budgets of one user+category scope overlap. -/
theorem C1_budget_overlap_conflict (cats : List Category) (store : List Budget)
    (newId : Nat) (dto : CreateBudgetDto) (uid : Nat)
    (hwin : dto.startAt < dto.endAt)
    (hcat : categoryLookupFails cats dto.categoryId = false) :
    ((∃ i, createBudget cats store newId dto uid = .error (.conflict i)) ↔
      ∃ b, b ∈ store ∧ b.userId = uid ∧ b.categoryId = dto.categoryId ∧
        b.startAt < dto.endAt ∧ dto.startAt < b.endAt) ∧
    (PairwiseNonOverlap store → (∀ b, b ∈ store → b.id ≠ newId) →
      ∀ nb store2, createBudget cats store newId dto uid = .ok (nb, store2) →
        PairwiseNonOverlap store2) := by
  have hred : createBudget cats store newId dto uid =
      (match checkOverlap store uid dto.categoryId dto.startAt dto.endAt none with
       | some existing => .error (.conflict existing.id)
       | none =>
         let b : Budget :=
           { id := newId
             userId := uid
             categoryId := dto.categoryId
             category := dto.categoryId.bind (fun cid => cats.find? (fun c => c.id == cid))
             limitAmount := dto.limitAmount
             period := dto.period
             startAt := dto.startAt
             endAt := dto.endAt }
         .ok (b, b :: store)) := by
    unfold createBudget
    rw [if_neg (not_le.mpr hwin), hcat]
    simp only [Bool.false_eq_true, if_false]
  constructor
  · constructor
    · rintro ⟨i, hi⟩
      rw [hred] at hi
      rcases hov : checkOverlap store uid dto.categoryId dto.startAt dto.endAt none with _ | e
      · rw [hov] at hi
        simp at hi
      · have hmem := List.mem_of_find?_eq_some hov
        have hq := List.find?_some hov
        rw [overlapQuery_none_iff] at hq
        exact ⟨e, hmem, hq.1, hq.2.1, hq.2.2.1, hq.2.2.2⟩
    · rintro ⟨b, hmem, hu, hc, h1, h2⟩
      rw [hred]
      rcases hov : checkOverlap store uid dto.categoryId dto.startAt dto.endAt none with _ | e
      · exfalso
        have hnone := List.find?_eq_none.mp hov b hmem
        rw [overlapQuery_none_iff] at hnone
        exact hnone ⟨hu, hc, h1, h2⟩
      · exact ⟨e.id, rfl⟩
  · intro hinv hfresh nb store2 hok
    rw [hred] at hok
    rcases hov : checkOverlap store uid dto.categoryId dto.startAt dto.endAt none with _ | e
    swap
    · rw [hov] at hok
      simp at hok
    rw [hov] at hok
    simp only [Except.ok.injEq, Prod.mk.injEq] at hok
    obtain ⟨hnb, hst⟩ := hok
    subst hst
    have hno : ∀ b2, b2 ∈ store →
        ¬ (b2.userId = uid ∧ b2.categoryId = dto.categoryId ∧
           b2.startAt < dto.endAt ∧ dto.startAt < b2.endAt) := by
      intro b2 hb2
      have h := List.find?_eq_none.mp hov b2 hb2
      rw [overlapQuery_none_iff] at h
      exact h
    intro b1 hb1 b2 hb2 hne huser hcid
    rcases List.mem_cons.mp hb1 with rfl | hb1s
    · rcases List.mem_cons.mp hb2 with rfl | hb2s
      · exact absurd rfl hne
      · intro hovl
        exact hno b2 hb2s ⟨huser.symm, hcid.symm, hovl.2, hovl.1⟩
    · rcases List.mem_cons.mp hb2 with rfl | hb2s
      · intro hovl
        exact hno b1 hb1s ⟨huser, hcid, hovl.1, hovl.2⟩
      · exact hinv b1 hb1s b2 hb2s hne huser hcid

/-- Witness for C1: with one stored budget over days [0, 10), a request for
[5, 15) of the same user and overall scope conflicts. -/
theorem C1_budget_overlap_conflict_witness :
    ((0 : ℤ) < 10 ∧ (5 : ℤ) < 15) ∧
    (∃ i, createBudget [] [⟨1, 7, none, none, 100, "month", 0, 10⟩] 2
        ⟨none, 50, "month", 5, 15⟩ 7 = .error (.conflict i)) := by
  have h := (C1_budget_overlap_conflict [] [⟨1, 7, none, none, 100, "month", 0, 10⟩] 2
    ⟨none, 50, "month", 5, 15⟩ 7 (by decide) rfl).1.mpr
    ⟨⟨1, 7, none, none, 100, "month", 0, 10⟩, List.mem_singleton.mpr rfl, rfl, rfl,
      by decide, by decide⟩
  exact ⟨⟨by decide, by decide⟩, h⟩

-- ═══════════════════════════════════════════════════════════════════════════
-- C6 — under-budget praise nudge
-- ═══════════════════════════════════════════════════════════════════════════

/-- Decoding of the under-budget filter into propositions: the summary must
be in the ok tier AND under the 85 % threshold, with a quarter of the period
elapsed. -/
theorem underBudgetFilter_iff (now : ℤ) (s : BudgetSummary) :
    underBudgetFilter now s = true ↔
      (s.alertStatus = .ok ∧ s.percentageUsed < UNDER_BUDGET_THRESHOLD ∧
       UNDER_BUDGET_MIN_PERIOD_ELAPSED ≤ periodFractionElapsed now s.budget) := by
  unfold underBudgetFilter
  split
  · rename_i h
    simp only [Bool.false_eq_true, false_iff]
    rintro ⟨h1, h2, h3⟩
    rcases h with h | h
    · exact h h1
    · exact absurd h2 (not_lt.mpr h)
  · rename_i h
    push_neg at h
    simp only [decide_eq_true_eq]
    exact ⟨fun h3 => ⟨h.1, h.2, h3⟩, fun h3 => h3.2.2⟩

/-- getUnderBudgetNudge as a case split on the qualifying summaries. -/
theorem getUnderBudgetNudge_eq (now : ℤ) (ledger : List Transaction)
    (store : List Budget) (uid : Nat) :
    getUnderBudgetNudge now ledger store uid =
      match qualifyingBudgets now ledger store uid with
      | [] => none
      | b0 :: rest =>
        some { id := "under_budget"
               type := "under_budget"
               message :=
                 if rest.isEmpty then singleUnderBudgetMessage b0
                 else countUnderBudgetMessage (rest.length + 1)
               severity := "info" } := by
  unfold getUnderBudgetNudge qualifyingBudgets
  rcases hA : activeBudgets now store uid with _ | ⟨a, as⟩
  · simp
  · simp

/-- Counterexample to C6 as stated: a budget at 82 % used — below the 85 %
threshold — active (endAt ahead of now) and half way through its period,
would qualify under the claim, yet the nudge is not emitted because the
source additionally requires the alert status to be ok (usage below 80 %). -/
theorem C6_under_budget_nudge_counterexample :
    (enrichWithSummary [⟨1, "expense", 82, 1, none⟩]
       ⟨3, 1, none, none, 100, "month", 0, 4⟩).percentageUsed = 82 ∧
    (enrichWithSummary [⟨1, "expense", 82, 1, none⟩]
       ⟨3, 1, none, none, 100, "month", 0, 4⟩).percentageUsed < UNDER_BUDGET_THRESHOLD ∧
    (enrichWithSummary [⟨1, "expense", 82, 1, none⟩]
       ⟨3, 1, none, none, 100, "month", 0, 4⟩).alertStatus = .near ∧
    UNDER_BUDGET_MIN_PERIOD_ELAPSED ≤
      periodFractionElapsed 2 ⟨3, 1, none, none, 100, "month", 0, 4⟩ ∧
    ((2 : ℤ) ≤ (⟨3, 1, none, none, 100, "month", 0, 4⟩ : Budget).endAt) ∧
    getUnderBudgetNudge 2 [⟨1, "expense", 82, 1, none⟩]
      [⟨3, 1, none, none, 100, "month", 0, 4⟩] 1 = none := by
  refine ⟨?_, ?_, ?_, ?_, ?_, ?_⟩
  · norm_num [enrichWithSummary, calcSpending, round2, round1, roundTo]
  · norm_num [enrichWithSummary, calcSpending, round2, round1, roundTo,
      UNDER_BUDGET_THRESHOLD]
  · norm_num [enrichWithSummary, calcSpending, round2, round1, roundTo,
      NEAR_LIMIT_THRESHOLD]
  · norm_num [UNDER_BUDGET_MIN_PERIOD_ELAPSED, periodFractionElapsed, msPerDay]
  · norm_num
  · norm_num [getUnderBudgetNudge, activeBudgets, underBudgetFilter, enrichWithSummary,
      calcSpending, round2, round1, roundTo, NEAR_LIMIT_THRESHOLD, UNDER_BUDGET_THRESHOLD,
      UNDER_BUDGET_MIN_PERIOD_ELAPSED, periodFractionElapsed, msPerDay,
      List.filter_cons, List.filter_nil, reduceCtorEq]
    rw [if_neg (show AlertStatus.near = AlertStatus.ok → False by intro h; cases h)]

/-- C6 (amended): the nudge considers exactly the user active budgets
(endAt not before now) whose alert status is ok AND whose percentageUsed is
below the 85 % threshold, with at least a quarter of the period elapsed;
with none qualifying nothing is emitted, with exactly one a single message
naming its category (or overall spending), with several a count-based
message. -/
theorem C6_under_budget_nudge (now : ℤ) (ledger : List Transaction)
    (store : List Budget) (uid : Nat) :
    (∀ s, s ∈ qualifyingBudgets now ledger store uid ↔
       ∃ b, b ∈ store ∧ b.userId = uid ∧ now ≤ b.endAt ∧
         s = enrichWithSummary ledger b ∧ s.alertStatus = .ok ∧
         s.percentageUsed < UNDER_BUDGET_THRESHOLD ∧
         UNDER_BUDGET_MIN_PERIOD_ELAPSED ≤ periodFractionElapsed now b) ∧
    (qualifyingBudgets now ledger store uid = [] →
       getUnderBudgetNudge now ledger store uid = none) ∧
    (∀ q, qualifyingBudgets now ledger store uid = [q] →
       getUnderBudgetNudge now ledger store uid =
         some ⟨"under_budget", "under_budget", singleUnderBudgetMessage q, "info"⟩) ∧
    (∀ q qs, qualifyingBudgets now ledger store uid = q :: qs → qs ≠ [] →
       getUnderBudgetNudge now ledger store uid =
         some ⟨"under_budget", "under_budget",
           countUnderBudgetMessage (qs.length + 1), "info"⟩) := by
  refine ⟨?_, ?_, ?_, ?_⟩
  · intro s
    constructor
    · intro hs
      rw [qualifyingBudgets, List.mem_filter] at hs
      obtain ⟨hmap, hfil⟩ := hs
      rw [List.mem_map] at hmap
      obtain ⟨b, hb, rfl⟩ := hmap
      rw [underBudgetFilter_iff] at hfil
      rw [activeBudgets, List.mem_filter] at hb
      obtain ⟨hbs, hcond⟩ := hb
      simp only [Bool.and_eq_true, beq_iff_eq, decide_eq_true_eq] at hcond
      exact ⟨b, hbs, hcond.1, hcond.2, rfl, hfil.1, hfil.2.1, hfil.2.2⟩
    · rintro ⟨b, hbs, hu, he, rfl, h1, h2, h3⟩
      rw [qualifyingBudgets, List.mem_filter]
      constructor
      · rw [List.mem_map]
        refine ⟨b, ?_, rfl⟩
        rw [activeBudgets, List.mem_filter]
        refine ⟨hbs, ?_⟩
        simp only [Bool.and_eq_true, beq_iff_eq, decide_eq_true_eq]
        exact ⟨hu, he⟩
      · rw [underBudgetFilter_iff]
        exact ⟨h1, h2, h3⟩
  · intro h
    rw [getUnderBudgetNudge_eq, h]
  · intro q h
    rw [getUnderBudgetNudge_eq, h]
    simp
  · intro q qs h hne
    rw [getUnderBudgetNudge_eq, h]
    rcases qs with _ | ⟨x, xs⟩
    · exact absurd rfl hne
    · rfl

/-- Witness for C6: no stored budgets, no nudge. -/
theorem C6_under_budget_nudge_witness :
    getUnderBudgetNudge 0 [] [] 1 = none :=
  (C6_under_budget_nudge 0 [] [] 1).2.1 rfl

-- ═══════════════════════════════════════════════════════════════════════════
-- C8 — early-finish goal nudge
-- ═══════════════════════════════════════════════════════════════════════════

/-- Counterexample to C8 as stated: a goal with 0.01 left to save and 35
days (5 weeks) remaining satisfies every condition of the claim — on_track,
positive daysRemaining, 5 weeks ≥ 2.5, positive remaining, positive
denominator, and an unrounded difference 0.01/3 - 0.01/5 strictly between 0
and 1,000,000 — yet no nudge is emitted, because the source rounds the
difference to two decimals (here 0.00) before the positivity test. -/
theorem C8_early_finish_nudge_counterexample :
    (enrichWithProgress 0 ⟨2, 1, "h", 10, 999/100, some (35 * msPerDay), -msPerDay⟩).status
      = .on_track ∧
    (enrichWithProgress 0 ⟨2, 1, "h", 10, 999/100, some (35 * msPerDay), -msPerDay⟩).daysRemaining
      = some 35 ∧
    round2 ((enrichWithProgress 0 ⟨2, 1, "h", 10, 999/100, some (35 * msPerDay), -msPerDay⟩).targetAmount -
      (enrichWithProgress 0 ⟨2, 1, "h", 10, 999/100, some (35 * msPerDay), -msPerDay⟩).currentAmount)
      = 1/100 ∧
    (0 : ℚ) < (1/100) / ((35 : ℚ)/7 - 2) - (1/100) / ((35 : ℚ)/7) ∧
    (1/100 : ℚ) / ((35 : ℚ)/7 - 2) - (1/100) / ((35 : ℚ)/7) < 1000000 ∧
    extraWeeklyAmount
      (enrichWithProgress 0 ⟨2, 1, "h", 10, 999/100, some (35 * msPerDay), -msPerDay⟩) 35 = 0 ∧
    goalNudge 0 ⟨2, 1, "h", 10, 999/100, some (35 * msPerDay), -msPerDay⟩ = none := by
  refine ⟨?_, ?_, ?_, ?_, ?_, ?_, ?_⟩
  · norm_num [enrichWithProgress, statusOf, percentageOf, ratesOf, daysRemainingOf,
      daysElapsedOf, round2, round1, roundTo, msPerDay]
  · norm_num [enrichWithProgress, daysRemainingOf, msPerDay]
  · norm_num [enrichWithProgress, round2, round1, roundTo]
  · norm_num
  · norm_num
  · norm_num [extraWeeklyAmount, enrichWithProgress, round2, round1, roundTo]
  · norm_num [goalNudge, enrichWithProgress, statusOf, percentageOf, ratesOf, daysRemainingOf,
      daysElapsedOf, round2, round1, roundTo, msPerDay]

/-- C8 (amended): a nudge is emitted for a goal exactly when its status is
on_track or at_risk, it has positive daysRemaining with weeksRemaining =
daysRemaining/7 at least 2.5, the (rounded) remaining amount is positive,
the early-finish denominator weeksRemaining - 2 is positive, and the extra
weekly amount remaining/(weeksRemaining-2) - remaining/weeksRemaining —
rounded to two decimals — is strictly positive and below 1,000,000; the
nudge amount is that rounded difference. -/
theorem C8_early_finish_nudge (now : ℤ) (g : Goal) :
    (∀ n, goalNudge now g = some n →
       ((enrichWithProgress now g).status = .on_track ∨
        (enrichWithProgress now g).status = .at_risk) ∧
       ∃ dr, (enrichWithProgress now g).daysRemaining = some dr ∧ 0 < dr ∧
         (5/2 : ℚ) ≤ (dr : ℚ) / 7 ∧
         0 < round2 ((enrichWithProgress now g).targetAmount -
                     (enrichWithProgress now g).currentAmount) ∧
         0 < (dr : ℚ) / 7 - 2 ∧
         0 < extraWeeklyAmount (enrichWithProgress now g) dr ∧
         extraWeeklyAmount (enrichWithProgress now g) dr < 1000000 ∧
         n = ⟨"goal_early_" ++ toString g.id, "goal_save_early", g.name,
              extraWeeklyAmount (enrichWithProgress now g) dr, "info"⟩) ∧
    (∀ dr, (enrichWithProgress now g).daysRemaining = some dr →
       ((enrichWithProgress now g).status = .on_track ∨
        (enrichWithProgress now g).status = .at_risk) →
       0 < dr → (5/2 : ℚ) ≤ (dr : ℚ) / 7 →
       0 < round2 ((enrichWithProgress now g).targetAmount -
                   (enrichWithProgress now g).currentAmount) →
       0 < (dr : ℚ) / 7 - 2 →
       0 < extraWeeklyAmount (enrichWithProgress now g) dr →
       extraWeeklyAmount (enrichWithProgress now g) dr < 1000000 →
       goalNudge now g = some ⟨"goal_early_" ++ toString g.id, "goal_save_early", g.name,
         extraWeeklyAmount (enrichWithProgress now g) dr, "info"⟩) := by
  constructor
  · intro n hn
    simp only [goalNudge, extraWeeklyAmount] at hn ⊢
    split at hn
    · exact absurd hn (by simp)
    rename_i hst
    split at hn
    · exact absurd hn (by simp)
    rename_i dr hdr
    split at hn
    · exact absurd hn (by simp)
    rename_i hdr0
    split at hn
    · exact absurd hn (by simp)
    rename_i hwr
    split at hn
    · exact absurd hn (by simp)
    rename_i hrem
    split at hn
    · exact absurd hn (by simp)
    rename_i hwtfe
    split at hn
    · rename_i hcond
      rw [Option.some.injEq] at hn
      subst hn
      refine ⟨?_, dr, hdr, by omega, not_lt.mp hwr, not_le.mp hrem, not_le.mp hwtfe,
        hcond.1, hcond.2, rfl⟩
      rcases hS : (enrichWithProgress now g).status with _ | _ | _ | _ | _ <;>
        simp [hS] at hst ⊢
    · exact absurd hn (by simp)
  · intro dr hdr hst hdr0 hwr hrem hwtfe hpos hlt
    have hnot : ¬ ((enrichWithProgress now g).status = .completed ∨
        (enrichWithProgress now g).status = .overdue ∨
        (enrichWithProgress now g).status = .in_progress) := by
      rcases hst with h | h <;> rw [h] <;> simp
    simp only [goalNudge, extraWeeklyAmount]
    rw [if_neg hnot]
    simp only [hdr]
    rw [if_neg (not_le.mpr hdr0), if_neg (not_lt.mpr hwr), if_neg (not_le.mpr hrem),
      if_neg (not_le.mpr hwtfe)]
    rw [if_pos ⟨hpos, hlt⟩]

/-- Witness for C8: a goal needing 1000 with 10 weeks left gets the nudge
with extra weekly amount 25 = 1000/8 - 1000/10. -/
theorem C8_early_finish_nudge_witness :
    goalNudge 0 ⟨5, 1, "w", 1000, 0, some (70 * msPerDay), -msPerDay⟩ =
      some ⟨"goal_early_" ++ toString (5 : Nat), "goal_save_early", "w",
        extraWeeklyAmount
          (enrichWithProgress 0 ⟨5, 1, "w", 1000, 0, some (70 * msPerDay), -msPerDay⟩) 70,
        "info"⟩ := by
  exact (C8_early_finish_nudge 0 ⟨5, 1, "w", 1000, 0, some (70 * msPerDay), -msPerDay⟩).2 70
    (by norm_num [enrichWithProgress, daysRemainingOf, msPerDay])
    (by
      right
      norm_num [enrichWithProgress, statusOf, percentageOf, ratesOf, daysRemainingOf,
        daysElapsedOf, round2, round1, roundTo, msPerDay])
    (by norm_num)
    (by norm_num)
    (by norm_num [enrichWithProgress, round2, round1, roundTo])
    (by norm_num)
    (by norm_num [extraWeeklyAmount, enrichWithProgress, round2, round1, roundTo])
    (by norm_num [extraWeeklyAmount, enrichWithProgress, round2, round1, roundTo])

end FinAnalytics
